import Mathlib

/-!
Verification development for the MPhys-Project light-curve pipeline.

This file gives a shallow embedding of the parts of the repository that the
claims concern:

- test.py: hexstring_to_int, find_config_custom_cuts, parse_config_cuts and
  the CleanLoop.loop / CleanLoop.clean_lcs control flow;
- Pipeline/cone_search.py: CatSearch.query_tap;
- Pipeline/atlas_query.py: Atclean_Query.run_script_with_args and
  Atclean_Query.query;
- the Cut / CutList data model and the Bad-Day Averager, which live in the
  lightcurve module that is imported by test.py but is not part of the
  repository snapshot; those definitions are modelled from the specification
  and are marked as such in their doc comments.

Python floats are modelled as exact rationals, Python ints as Int, Python
exceptions as an explicit error type threaded through the Except monad.
-/

set_option maxRecDepth 8000

deriving instance DecidableEq for Except

namespace MPhys

/-- Python exception values observable by the embedded code. -/
inductive PyError where
  | keyError (key : String)
  | valueError (msg : String)
  | runtimeError (msg : String)
  | attributeError (msg : String)
  | duplicateNameError (name : String)
  | requestException (msg : String)
  | otherError (msg : String)
deriving DecidableEq, Repr

/-- Python dict lookup d[k]: the value when the key is present, otherwise a
KeyError. Dict keys are unique, so an association list lookup is faithful. -/
def dictGet {α : Type} (d : List (String × α)) (k : String) : Except PyError α :=
  match d.lookup k with
  | some v => Except.ok v
  | none => Except.error (PyError.keyError k)

/-- Strip leading and trailing whitespace, as the Python numeric string
constructors do before parsing. -/
def trimWs (cs : List Char) : List Char :=
  ((cs.dropWhile Char.isWhitespace).reverse.dropWhile Char.isWhitespace).reverse

/-- Numeric value of one hexadecimal digit, if the character is one. -/
def hexDigitVal (c : Char) : Option Nat :=
  if '0' ≤ c ∧ c ≤ '9' then some (c.toNat - 48)
  else if 'a' ≤ c ∧ c ≤ 'f' then some (c.toNat - 87)
  else if 'A' ≤ c ∧ c ≤ 'F' then some (c.toNat - 55)
  else none

/-- Accumulate base-16 digits with the Python int literal underscore rule: a
single underscore may stand between two digits (the Bool records whether the
previous character was a digit, so that an underscore is legal next). -/
def hexDigitsCore : List Char → Nat → Bool → Option Nat
  | [], acc, lastDigit => if lastDigit then some acc else none
  | c :: cs, acc, lastDigit =>
    if c = '_' then
      if lastDigit then hexDigitsCore cs acc false else none
    else
      match hexDigitVal c with
      | some d => hexDigitsCore cs (16 * acc + d) true
      | none => none

/-- Body of a base-16 int literal after the optional sign: an optional 0x or
0X radix marker followed by hex digits. An underscore directly after the
radix marker is accepted, as in Python. -/
def parseHexBody : List Char → Option Nat
  | [] => none
  | '0' :: x :: rest =>
    if x = 'x' ∨ x = 'X' then
      if rest.isEmpty then none else hexDigitsCore rest 0 true
    else hexDigitsCore ('0' :: x :: rest) 0 false
  | cs => hexDigitsCore cs 0 false

/-- Optional leading sign of a numeric literal. -/
def parseSign : List Char → Int × List Char
  | '+' :: cs => (1, cs)
  | '-' :: cs => (-1, cs)
  | cs => (1, cs)

/-- Embedding of hexstring_to_int from test.py (lines 37-47), which is
int(hexstring, 16): optional surrounding whitespace, optional sign, optional
0x/0X radix marker, then hexadecimal digits; anything else raises ValueError. -/
def hexstring_to_int (hexstring : String) : Except PyError Int :=
  let cs := trimWs hexstring.toList
  let sc := parseSign cs
  match parseHexBody sc.2 with
  | some n => Except.ok (sc.1 * (n : Int))
  | none =>
    Except.error (PyError.valueError
      ("invalid literal for int() with base 16: " ++ hexstring))

/-- Accumulate base-10 digits with the underscore rule, also counting the
digits seen (the count is needed to scale a fractional part). -/
def decDigitsCore : List Char → Nat → Nat → Bool → Option (Nat × Nat)
  | [], acc, cnt, lastDigit => if lastDigit then some (acc, cnt) else none
  | c :: cs, acc, cnt, lastDigit =>
    if c = '_' then
      if lastDigit then decDigitsCore cs acc cnt false else none
    else if c.isDigit then decDigitsCore cs (10 * acc + (c.toNat - 48)) (cnt + 1) true
    else none

/-- Value and digit count of a possibly empty digit group of a float literal. -/
def decPartVal : List Char → Option (Nat × Nat)
  | [] => some (0, 0)
  | cs => decDigitsCore cs 0 0 false

/-- Mantissa of a Python float literal: digits with an optional decimal point;
at least one digit must be present overall. -/
def mantissaVal (cs : List Char) : Option ℚ :=
  match cs.splitOn '.' with
  | [ip] =>
    match decPartVal ip with
    | some (v, c) => if c = 0 then none else some ((v : ℚ))
    | none => none
  | [ip, fp] =>
    match decPartVal ip, decPartVal fp with
    | some (iv, ic), some (fv, fc) =>
      if ic + fc = 0 then none
      else some ((iv : ℚ) + (fv : ℚ) / ((10 : ℚ) ^ fc))
    | _, _ => none
  | _ => none

/-- Parse a Python float literal (sign, mantissa, optional exponent) to an
exact rational. The special values inf and nan are not modelled; no claim
touches them. -/
def pyFloatOfChars (cs : List Char) : Option ℚ :=
  let t := trimWs cs
  let sc := parseSign t
  let parts := (sc.2.map (fun c => if c = 'E' then 'e' else c)).splitOn 'e'
  match parts with
  | [m] => (mantissaVal m).map (fun q => (sc.1 : ℚ) * q)
  | [m, ex] =>
    match mantissaVal m with
    | none => none
    | some q =>
      let esc := parseSign ex
      match decDigitsCore esc.2 0 0 false with
      | some (ev, _) => some ((sc.1 : ℚ) * q * (10 : ℚ) ^ (esc.1 * (ev : Int)))
      | none => none
  | _ => none

/-- Embedding of the Python float(s) conversion used throughout
parse_config_cuts: the parsed value, or ValueError. -/
def pyFloat (s : String) : Except PyError ℚ :=
  match pyFloatOfChars s.toList with
  | some q => Except.ok q
  | none =>
    Except.error (PyError.valueError ("could not convert string to float: " ++ s))

/-- Embedding of the Python int(s) conversion (base 10) used in
parse_config_cuts: the parsed value, or ValueError. -/
def pyInt (s : String) : Except PyError Int :=
  let cs := trimWs s.toList
  let sc := parseSign cs
  match decDigitsCore sc.2 0 0 false with
  | some vc => Except.ok (sc.1 * (vc.1 : Int))
  | none =>
    Except.error (PyError.valueError ("invalid literal for int() with base 10: " ++ s))

/-- Values stored in a parameter bag of a Cut. -/
inductive ParamVal where
  | q (x : ℚ)
  | i (n : Int)
  | b (v : Bool)
deriving DecidableEq, Repr

/-- Modelled from the spec: the Cut record of the lightcurve module, which is
imported by test.py but is not under src/. A Cut has an optional column name,
optional min_value and max_value bounds, a flag bitmask and a parameter bag.
The flag is optional because the uncert_est Cut is constructed without one. -/
structure Cut where
  column : Option String := none
  min_value : Option ℚ := none
  max_value : Option ℚ := none
  flag : Option Int := none
  params : List (String × ParamVal) := []
deriving DecidableEq, Repr

/-- Modelled from the spec: CutList, an ordered mapping from cut name to Cut
(lightcurve module, not under src/). -/
structure CutList where
  cuts : List (String × Cut) := []
deriving DecidableEq, Repr

/-- Names of the member cuts, in registration order. -/
def CutList.names (cl : CutList) : List String := cl.cuts.map Prod.fst

/-- Modelled from the spec: CutList.has, a boolean presence check. -/
def CutList.has (cl : CutList) (name : String) : Bool := cl.names.contains name

/-- Modelled from the spec: CutList.get returns the named Cut or a not-found
sentinel, never raising. -/
def CutList.get (cl : CutList) (name : String) : Option Cut := cl.cuts.lookup name

/-- Modelled from the spec: CutList.add inserts a named Cut and fails with a
DuplicateNameError when the name is already present. -/
def CutList.add (cl : CutList) (cut : Cut) (name : String) : Except PyError CutList :=
  if cl.has name then Except.error (PyError.duplicateNameError name)
  else Except.ok ⟨cl.cuts ++ [(name, cut)]⟩

/-- Flag bits of a Cut, with no flag read as 0 (no bits set). -/
def cutFlag (c : Cut) : Int := c.flag.getD 0

/-- Scan for two distinct entries with overlapping flag bits: for each entry,
compare its flag against the flags of all later entries with bitwise AND. -/
def pairwiseFlagHit : List (String × Cut) → Bool
  | [] => false
  | c :: rest =>
    rest.any (fun d => decide (Int.land (cutFlag c.2) (cutFlag d.2) ≠ 0))
      || pairwiseFlagHit rest

/-- Does the flag at position i overlap the flag of some other position? -/
def overlapsAnother (l : List (String × Cut)) (i : Nat) (f : Int) : Bool :=
  l.enum.any (fun p => decide (p.1 ≠ i) && decide (Int.land f (cutFlag p.2.2) ≠ 0))

/-- Modelled from the spec: CutList.check_for_flag_duplicates (lightcurve
module, not under src/) returns a pair of a boolean, true when some two
distinct member Cuts have flags with a nonzero bitwise AND, and the collection
of flag values involved in such an overlap. -/
def CutList.check_for_flag_duplicates (cl : CutList) : Bool × List Int :=
  (pairwiseFlagHit cl.cuts,
   cl.cuts.enum.filterMap (fun p =>
     if overlapsAnother cl.cuts p.1 (cutFlag p.2.2) then some (cutFlag p.2.2)
     else none))

/-- Modelled from the spec: DEFAULT_CUT_NAMES, the reserved default cut name
set imported from the lightcurve module. The default cuts registered by
parse_config_cuts are uncert_est, uncert_cut, x2_cut, controls_cut and
badday_cut. -/
def DEFAULT_CUT_NAMES : List String :=
  ["uncert_est", "uncert_cut", "x2_cut", "controls_cut", "badday_cut"]

/-- One section of the configuration document: a key-value mapping. -/
abbrev CfgSection := List (String × String)

/-- The configuration document: an ordered mapping from section name to
section, as a Python configparser object preserves insertion order. -/
abbrev Config := List (String × CfgSection)

/-- Python str.endswith as a suffix check on the character list. -/
def pyEndsWith (s sfx : String) : Bool := List.isSuffixOf sfx.toList s.toList

/-- The loop condition of find_config_custom_cuts: the key ends in _cut and
is not one of the reserved default cut names. -/
def isCustomCutKey (k : String) : Bool :=
  pyEndsWith k ("_cut") && !(DEFAULT_CUT_NAMES.contains k)

/-- Loop body of find_config_custom_cuts: walk the document in order and
append each section whose key ends in _cut and is not reserved. -/
def findCustomAux : Config → List CfgSection → List CfgSection
  | [], acc => acc
  | (k, s) :: rest, acc =>
    if isCustomCutKey k then findCustomAux rest (acc ++ [s])
    else findCustomAux rest acc

/-- Embedding of find_config_custom_cuts from test.py (lines 236-243). -/
def find_config_custom_cuts (config : Config) : List CfgSection :=
  findCustomAux config []

/-- Embedding of the try-block body for one custom cut section in
parse_config_cuts (test.py lines 334-347). The keyword arguments of the Cut
constructor are evaluated in source order: column, flag, then min_value and
max_value, where the comparison against the literal string None reads the key
first and a non-None value goes through float(). Any KeyError or ValueError
escapes to the caller (the surrounding try). -/
def parse_custom_cut (cut_settings : CfgSection) : Except PyError Cut := do
  let col ← dictGet cut_settings ("column")
  let flagStr ← dictGet cut_settings ("flag")
  let fl ← hexstring_to_int flagStr
  let mnStr ← dictGet cut_settings ("min_value")
  let mn ← if mnStr = "None" then pure none else (do
    let q ← pyFloat mnStr
    pure (some q))
  let mxStr ← dictGet cut_settings ("max_value")
  let mx ← if mxStr = "None" then pure none else (do
    let q ← pyFloat mxStr
    pure (some q))
  pure { column := some col, flag := some fl, min_value := mn, max_value := mx }

/-- Embedding of the custom-cut loop of parse_config_cuts (test.py lines
330-351): each section is parsed and added under the name custom_cut_i inside
a try block, so any exception (missing key, unparsable value, duplicate name)
only skips that section with a warning; the loop then continues. The counter
i is the position of the section in the list of custom-cut sections. -/
def addCustomCutsFrom : Nat → CutList → List CfgSection → CutList
  | _, cl, [] => cl
  | i, cl, s :: rest =>
    let cl2 :=
      match parse_custom_cut s with
      | Except.error _ => cl
      | Except.ok cut =>
        match cl.add cut ("custom_cut_" ++ toString i) with
        | Except.error _ => cl
        | Except.ok cl3 => cl3
    addCustomCutsFrom (i + 1) cl2 rest

/-- The command-line switches of test.py consumed by parse_config_cuts. -/
structure Args where
  uncert_cut : Bool := false
  x2_cut : Bool := false
  controls_cut : Bool := false
  averaging : Bool := false
  custom_cuts : Bool := false
  mjd_bin_size : Option ℚ := none
deriving DecidableEq, Repr

/-- Embedding of the unconditional uncert_est block of parse_config_cuts
(test.py lines 253-263): reads uncert_est.temp_x2_max_value through float()
and uncert_cut.flag through hexstring_to_int, with no try around either. -/
def build_uncert_est (config : Config) : Except PyError Cut := do
  let t ← pyFloat (← dictGet (← dictGet config ("uncert_est")) ("temp_x2_max_value"))
  let uf ← hexstring_to_int (← dictGet (← dictGet config ("uncert_cut")) ("flag"))
  pure { params := [("temp_x2_max_value", ParamVal.q t), ("uncert_cut_flag", ParamVal.i uf)] }

/-- Embedding of the uncert_cut block of parse_config_cuts (test.py lines
265-272). -/
def build_uncert_cut (config : Config) : Except PyError Cut := do
  let mv ← pyFloat (← dictGet (← dictGet config ("uncert_cut")) ("max_value"))
  let fl ← hexstring_to_int (← dictGet (← dictGet config ("uncert_cut")) ("flag"))
  pure { column := some ("duJy"), max_value := some mv, flag := some fl }

/-- Embedding of the x2_cut block of parse_config_cuts (test.py lines
274-289), with the params dict built before the Cut call, in source order. -/
def build_x2_cut (config : Config) : Except PyError Cut := do
  let stn ← pyFloat (← dictGet (← dictGet config ("x2_cut")) ("stn_bound"))
  let minCut ← pyInt (← dictGet (← dictGet config ("x2_cut")) ("min_cut"))
  let maxCut ← pyInt (← dictGet (← dictGet config ("x2_cut")) ("max_cut"))
  let step ← pyInt (← dictGet (← dictGet config ("x2_cut")) ("cut_step"))
  let pre ← dictGet (← dictGet config ("x2_cut")) ("use_pre_mjd0_lc")
  let params := [("stn_bound", ParamVal.q stn), ("min_cut", ParamVal.i minCut),
    ("max_cut", ParamVal.i maxCut), ("cut_step", ParamVal.i step),
    ("use_pre_mjd0_lc", ParamVal.b (pre == "True"))]
  let mv ← pyFloat (← dictGet (← dictGet config ("x2_cut")) ("max_value"))
  let fl ← hexstring_to_int (← dictGet (← dictGet config ("x2_cut")) ("flag"))
  pure { column := some ("chi/N"), max_value := some mv, flag := some fl, params := params }

/-- Embedding of the controls_cut block of parse_config_cuts (test.py lines
291-309). -/
def build_controls_cut (config : Config) : Except PyError Cut := do
  let qf ← hexstring_to_int (← dictGet (← dictGet config ("controls_cut")) ("questionable_flag"))
  let x2max ← pyFloat (← dictGet (← dictGet config ("controls_cut")) ("x2_max"))
  let x2f ← hexstring_to_int (← dictGet (← dictGet config ("controls_cut")) ("x2_flag"))
  let stnmax ← pyFloat (← dictGet (← dictGet config ("controls_cut")) ("stn_max"))
  let stnf ← hexstring_to_int (← dictGet (← dictGet config ("controls_cut")) ("stn_flag"))
  let ncm ← pyInt (← dictGet (← dictGet config ("controls_cut")) ("Nclip_max"))
  let ncf ← hexstring_to_int (← dictGet (← dictGet config ("controls_cut")) ("Nclip_flag"))
  let ngm ← pyInt (← dictGet (← dictGet config ("controls_cut")) ("Ngood_min"))
  let ngf ← hexstring_to_int (← dictGet (← dictGet config ("controls_cut")) ("Ngood_flag"))
  let params := [("questionable_flag", ParamVal.i qf), ("x2_max", ParamVal.q x2max),
    ("x2_flag", ParamVal.i x2f), ("stn_max", ParamVal.q stnmax),
    ("stn_flag", ParamVal.i stnf), ("Nclip_max", ParamVal.i ncm),
    ("Nclip_flag", ParamVal.i ncf), ("Ngood_min", ParamVal.i ngm),
    ("Ngood_flag", ParamVal.i ngf)]
  let fl ← hexstring_to_int (← dictGet (← dictGet config ("controls_cut")) ("bad_flag"))
  pure { flag := some fl, params := params }

/-- Embedding of the averaging block of parse_config_cuts (test.py lines
311-328). When args.mjd_bin_size is not None the source evaluates
args.args.mjd_bin_size, an attribute that does not exist, so that branch
raises AttributeError; this is reproduced faithfully. -/
def build_badday_cut (args : Args) (config : Config) : Except PyError Cut := do
  let mbs ← match args.mjd_bin_size with
    | none => pyFloat (← dictGet (← dictGet config ("averaging")) ("mjd_bin_size"))
    | some _ =>
      Except.error (PyError.attributeError
        ("'Namespace' object has no attribute 'args'"))
  let x2max ← pyFloat (← dictGet (← dictGet config ("averaging")) ("x2_max"))
  let ncm ← pyInt (← dictGet (← dictGet config ("averaging")) ("Nclip_max"))
  let ngm ← pyInt (← dictGet (← dictGet config ("averaging")) ("Ngood_min"))
  let ixf ← hexstring_to_int (← dictGet (← dictGet config ("averaging")) ("ixclip_flag"))
  let smf ← hexstring_to_int (← dictGet (← dictGet config ("averaging")) ("smallnum_flag"))
  let params := [("mjd_bin_size", ParamVal.q mbs), ("x2_max", ParamVal.q x2max),
    ("Nclip_max", ParamVal.i ncm), ("Ngood_min", ParamVal.i ngm),
    ("ixclip_flag", ParamVal.i ixf), ("smallnum_flag", ParamVal.i smf)]
  let fl ← hexstring_to_int (← dictGet (← dictGet config ("averaging")) ("flag"))
  pure { flag := some fl, params := params }

/-- Embedding of parse_config_cuts up to, but not including, the final
duplicate-flag check (test.py lines 246-351): the unconditional uncert_est
cut, the switch-guarded default cuts in source order, and the custom-cut
loop. Exceptions from the default blocks propagate; the custom loop cannot
raise. -/
def build_config_cuts (args : Args) (config : Config) : Except PyError CutList := do
  let uncert_est ← build_uncert_est config
  let cl ← CutList.add { cuts := [] } uncert_est ("uncert_est")
  let cl ← if args.uncert_cut then do
      let c ← build_uncert_cut config
      cl.add c ("uncert_cut")
    else pure cl
  let cl ← if args.x2_cut then do
      let c ← build_x2_cut config
      cl.add c ("x2_cut")
    else pure cl
  let cl ← if args.controls_cut then do
      let c ← build_controls_cut config
      cl.add c ("controls_cut")
    else pure cl
  let cl ← if args.averaging then do
      let c ← build_badday_cut args config
      cl.add c ("badday_cut")
    else pure cl
  let cl :=
    if args.custom_cuts then addCustomCutsFrom 0 cl (find_config_custom_cuts config)
    else cl
  pure cl

/-- The message of the RuntimeError raised on duplicate flags (test.py lines
355-357); the Python code interpolates the set of duplicate flag values. -/
def dupFlagsMsg (dups : List Int) : String :=
  "ERROR: Cuts in the config file contain duplicate flags: " ++ toString dups ++ "."

/-- Embedding of parse_config_cuts from test.py (lines 246-358): build the
CutList, then run check_for_flag_duplicates and raise RuntimeError naming the
duplicate flags when it reports an overlap, otherwise return the CutList.
The function performs no data processing, so the error is raised before any
cut is applied to data. -/
def parse_config_cuts (args : Args) (config : Config) : Except PyError CutList := do
  let cl ← build_config_cuts args config
  let chk := cl.check_for_flag_duplicates
  if chk.1 then Except.error (PyError.runtimeError (dupFlagsMsg chk.2))
  else pure cl

/-- Reference description of the custom-cut loop, used to state that a failing
section is skipped while every other section still contributes its cut: walk
the sections with their counter, drop the ones whose parse raises, drop the
ones whose generated name is already taken, and list the added (name, cut)
pairs in order. -/
def customCutsSpec : Nat → List String → List CfgSection → List (String × Cut)
  | _, _, [] => []
  | i, names, s :: rest =>
    match parse_custom_cut s with
    | Except.error _ => customCutsSpec (i + 1) names rest
    | Except.ok cut =>
      let n := "custom_cut_" ++ toString i
      if names.contains n then customCutsSpec (i + 1) names rest
      else (n, cut) :: customCutsSpec (i + 1) (names ++ [n]) rest

/-!
CleanLoop (test.py lines 116-226). The claims concern only the control flow
of loop and clean_lcs: clean_lcs loads, cleans and saves one (transient,
filter) unit and may raise (for example on a missing required column in the
input table); loop iterates transients in the outer loop and filters in the
inner loop with no try/except anywhere. The effect of one unit is abstracted
into an outcome oracle giving, for each (transient, filter) pair, either
success or the exception it raises.
-/

/-- Embedding of the CleanLoop.clean_lcs control flow (test.py lines 151-184):
the body either completes or raises, as given by the outcome oracle. -/
def clean_lcs (outcome : String → String → Option PyError) (tnsname filt : String) :
    Except PyError Unit :=
  match outcome tnsname filt with
  | some e => Except.error e
  | none => Except.ok ()

/-- Inner filter loop of CleanLoop.loop for one transient: on the first
raising unit the exception propagates, so the remaining filters are not
processed; otherwise every (transient, filter) unit is recorded as processed. -/
def loopFilters (outcome : String → String → Option PyError) (t : String) :
    List String → List (String × String) × Option ((String × String) × PyError)
  | [] => ([], none)
  | f :: rest =>
    match clean_lcs outcome t f with
    | Except.error e => ([], some ((t, f), e))
    | Except.ok _ =>
      let r := loopFilters outcome t rest
      ((t, f) :: r.1, r.2)

/-- Embedding of the CleanLoop.loop control flow (test.py lines 186-226):
iterate the transients; an exception raised while cleaning one unit
propagates out of loop, aborting the rest of the batch. The result records
the units processed to completion and the first failure, if any. -/
def CleanLoop.loop (outcome : String → String → Option PyError)
    (tnsnames filters : List String) :
    List (String × String) × Option ((String × String) × PyError) :=
  match tnsnames with
  | [] => ([], none)
  | t :: rest =>
    match loopFilters outcome t filters with
    | (ps, some err) => (ps, some err)
    | (ps, none) =>
      let r := CleanLoop.loop outcome rest filters
      (ps ++ r.1, r.2)

/-- All (transient, filter) units of a batch in processing order:
transient-major, filter-minor. -/
def allUnits : List String → List String → List (String × String)
  | [], _ => []
  | t :: rest, fs => fs.map (fun f => (t, f)) ++ allUnits rest fs

/-- The first failing unit of a unit list together with its exception. -/
def firstFailure (outcome : String → String → Option PyError) :
    List (String × String) → Option ((String × String) × PyError)
  | [] => none
  | u :: rest =>
    match outcome u.1 u.2 with
    | some e => some (u, e)
    | none => firstFailure outcome rest

/-- Does a unit succeed under the outcome oracle? -/
def unitOk (outcome : String → String → Option PyError) (u : String × String) : Bool :=
  (outcome u.1 u.2).isNone

/-!
Bad-Day Averager. The averaging code lives in the lightcurve module, which is
not under src/; the definitions below are modelled from the spec, section
4.4: per bin, iteratively sigma-clip the flux values (mean and standard
deviation of the current sample, points farther than a fixed number of
deviations from the mean are rejected, repeat until no further point is
rejected or a cap is reached), then emit the clipped mean as flux, the
retained count as n_good and the rejected count as n_clipped. The comparison
against the threshold is taken on squared distances, which is exact and
avoids square roots. -/

/-- Mean of a list of rationals (0 on the empty list, never taken here). -/
def listMean (xs : List ℚ) : ℚ := xs.sum / (xs.length : ℚ)

/-- Population variance of a list of rationals, the square of the standard
deviation of the sample. -/
def listVar (xs : List ℚ) : ℚ :=
  ((xs.map (fun x => (x - listMean xs) ^ 2)).sum) / (xs.length : ℚ)

/-- Modelled from the spec: one sigma-clip pass retains the points whose
distance from the sample mean is at most nsig standard deviations, compared
on squares. -/
def clipPass (nsig : ℚ) (xs : List ℚ) : List ℚ :=
  let m := listMean xs
  let v := listVar xs
  xs.filter (fun x => decide ((x - m) ^ 2 ≤ nsig ^ 2 * v))

/-- Modelled from the spec: iterate sigma-clip passes until no further point
is rejected or the fuel (an iteration cap) runs out. -/
def sigmaClipIter : Nat → ℚ → List ℚ → List ℚ
  | 0, _, xs => xs
  | n + 1, nsig, xs =>
    let ys := clipPass nsig xs
    if ys.length = xs.length then xs else sigmaClipIter n nsig ys

/-- The emitted statistics of one averaged bin that the claims mention. -/
structure AveragedBin where
  flux : ℚ
  n_good : Nat
  n_clipped : Nat
deriving DecidableEq, Repr

/-- Modelled from the spec: the Bad-Day Averager statistics of one bin, from
the flux values falling in the bin window: sigma-clip iteratively, then emit
the clipped mean, the retained count and the clipped count. -/
def baddayBin (nsig : ℚ) (fluxes : List ℚ) : AveragedBin :=
  let kept := sigmaClipIter fluxes.length nsig fluxes
  { flux := listMean kept, n_good := kept.length, n_clipped := fluxes.length - kept.length }

/-!
CatSearch (Pipeline/cone_search.py). query_tap builds an ADQL cone query from
the stored table, columns and coordinate system and the given coordinates,
launches it on the TAP service and converts the result to a DataFrame; both
except branches (network RequestException and any other exception) log and
fall through to returning an empty DataFrame. The TAP service and the
astropy-to-pandas conversion are the I/O boundary, abstracted as an oracle
from the built query to either the resulting DataFrame or the exception. -/

/-- A DataFrame, as far as the claims need it: a list of rows. -/
abbrev DataFrame := List (List String)

/-- The per-object state set up by CatSearch.__init__. -/
structure CatSearch where
  url : String
  output_dir : String
  table_name : String := "objdir"
  columns : String := "RA,Dec"
  coord_sys : String := "J2000"
  count : Nat := 0
deriving DecidableEq, Repr

/-- The semantic content of the ADQL query string that query_tap builds: a
TOP 5 selection of the configured columns from the configured table, with the
cone CONTAINS condition over the given coordinates and radius. -/
structure TapQuery where
  url : String
  coord_sys : String
  ra : ℚ
  dec : ℚ
  err : ℚ
  columns : String
  table_name : String
  top : Nat
deriving DecidableEq, Repr

/-- The query value sent by query_tap for the given inputs. -/
def buildTapQuery (cs : CatSearch) (ra dec err : ℚ) : TapQuery :=
  { url := cs.url, coord_sys := cs.coord_sys, ra := ra, dec := dec, err := err,
    columns := cs.columns, table_name := cs.table_name, top := 5 }

/-- Embedding of CatSearch.query_tap (Pipeline/cone_search.py lines 34-61):
launch the built query through the oracle; on success return the resulting
DataFrame, on a RequestException log a network error and return an empty
DataFrame, on any other exception log a generic error and return an empty
DataFrame. -/
def CatSearch.query_tap (launch : TapQuery → Except PyError DataFrame)
    (cs : CatSearch) (ra dec err : ℚ) : DataFrame :=
  match launch (buildTapQuery cs ra dec err) with
  | Except.ok df => df
  | Except.error (PyError.requestException _) => []
  | Except.error _ => []

/-!
Atclean_Query (Pipeline/atlas_query.py). run_script_with_args builds the
argv list and runs the subprocess with check=True; a CalledProcessError
(non-zero exit status) is caught and logged, any other exception propagates.
query walks the galaxy CSVs and, for each row, runs download.py then clean.py
through run_script_with_args. Subprocess execution is abstracted as an oracle
from the command to its outcome; the CSV contents are given as data. -/

/-- One argument of a built command line. Numeric arguments are kept as
values rather than formatted strings; the coords argument packs ra and dec. -/
inductive ArgVal where
  | str (s : String)
  | coordPair (ra dec : ℚ)
  | num (x : ℚ)
deriving DecidableEq, Repr

/-- A subprocess command: the script path and its argument list (the leading
python executable is implicit). -/
structure Command where
  script : String
  cmdArgs : List ArgVal
deriving DecidableEq, Repr

/-- Outcome of running one subprocess: clean exit, non-zero exit status
(subprocess.CalledProcessError under check=True), or some other raised
exception (for example a missing interpreter). -/
inductive ProcResult where
  | success
  | calledProcessError (returncode : Int)
  | raised (e : PyError)
deriving DecidableEq, Repr

/-- Embedding of Atclean_Query.run_script_with_args (Pipeline/atlas_query.py
lines 16-30): run the command; a CalledProcessError is caught and logged so
the call returns normally, while any other exception propagates. -/
def run_script_with_args (runProc : Command → ProcResult) (c : Command) :
    Except PyError Unit :=
  match runProc c with
  | ProcResult.success => Except.ok ()
  | ProcResult.calledProcessError _ => Except.ok ()
  | ProcResult.raised e => Except.error e

/-- One row of a galaxy CSV as read by query: ra, dec, date and event. -/
structure GalaxyRow where
  ra : ℚ
  dec : ℚ
  date : ℚ
  event : String
deriving DecidableEq, Repr

/-- The name built for one galaxy row at index i. -/
def galaxyName (event : String) (i : Nat) : String :=
  "neutrino_" ++ event ++ "_galaxy" ++ toString i

/-- The download.py command for one galaxy row (atlas_query.py line 42). -/
def downloadCommand (repo : String) (row : GalaxyRow) (i : Nat) : Command :=
  { script := repo ++ "/download.py",
    cmdArgs := [ArgVal.str ("--coords"), ArgVal.coordPair row.ra row.dec,
      ArgVal.str ("-o"), ArgVal.str ("-l"), ArgVal.str ("200"),
      ArgVal.str ("--mjd0"), ArgVal.num (row.date + 200),
      ArgVal.str (galaxyName row.event i)] }

/-- The clean.py command for one galaxy row (atlas_query.py line 46). -/
def cleanCommand (repo : String) (row : GalaxyRow) (i : Nat) : Command :=
  { script := repo ++ "/clean.py",
    cmdArgs := [ArgVal.str (galaxyName row.event i), ArgVal.str ("-x"),
      ArgVal.str ("-p"), ArgVal.str ("-o"), ArgVal.str ("-g")] }

/-- Rows of one CSV with their iterrows indices, starting at i. -/
def rowCommands (repo : String) : Nat → List GalaxyRow → List Command
  | _, [] => []
  | i, row :: rest =>
    downloadCommand repo row i :: cleanCommand repo row i :: rowCommands repo (i + 1) rest

/-- Inner loop of Atclean_Query.query over the rows of one CSV: run
download.py then clean.py for each row, accumulating the commands run; an
exception from run_script_with_args propagates. -/
def queryRows (runProc : Command → ProcResult) (repo : String) :
    Nat → List GalaxyRow → Except PyError (List Command)
  | _, [] => Except.ok []
  | i, row :: rest => do
    let dc := downloadCommand repo row i
    let _ ← run_script_with_args runProc dc
    let cc := cleanCommand repo row i
    let _ ← run_script_with_args runProc cc
    let tail ← queryRows runProc repo (i + 1) rest
    pure (dc :: cc :: tail)

/-- Embedding of Atclean_Query.query (Pipeline/atlas_query.py lines 32-47):
walk the CSVs, and for each row of each CSV run download.py then clean.py.
The returned trace lists the commands run, in order. -/
def Atclean_Query.query (runProc : Command → ProcResult) (repo : String)
    (data : List (List GalaxyRow)) : Except PyError (List Command) :=
  match data with
  | [] => Except.ok []
  | csv :: rest => do
    let c1 ← queryRows runProc repo 0 csv
    let c2 ← Atclean_Query.query runProc repo rest
    pure (c1 ++ c2)

/-- All commands of a batch, in order: per CSV, per row, download then clean. -/
def allCommands (repo : String) (data : List (List GalaxyRow)) : List Command :=
  match data with
  | [] => []
  | csv :: rest => rowCommands repo 0 csv ++ allCommands repo rest

/-!
Concrete inputs used by witnesses and counterexamples.
-/

/-- Switches enabling the uncertainty and chi-square cuts. -/
def argsW : Args := { uncert_cut := true, x2_cut := true }

/-- A configuration whose uncert_cut and x2_cut sections both carry the flag
0x1, so the two cuts overlap bit 0. -/
def configW : Config :=
  [("uncert_est", [("temp_x2_max_value", "5.0")]),
   ("uncert_cut", [("flag", "0x1"), ("max_value", "160.0")]),
   ("x2_cut", [("stn_bound", "3.0"), ("min_cut", "3"), ("max_cut", "50"),
     ("cut_step", "1"), ("use_pre_mjd0_lc", "False"), ("max_value", "5.0"),
     ("flag", "0x1")])]

/-- The CutList that build_config_cuts produces from argsW and configW. -/
def clW : CutList :=
  ⟨[("uncert_est",
     { params := [("temp_x2_max_value", ParamVal.q 5), ("uncert_cut_flag", ParamVal.i 1)] }),
    ("uncert_cut",
     { column := some ("duJy"), max_value := some 160, flag := some 1 }),
    ("x2_cut",
     { column := some ("chi/N"), max_value := some 5, flag := some 1,
       params := [("stn_bound", ParamVal.q 3), ("min_cut", ParamVal.i 3),
         ("max_cut", ParamVal.i 50), ("cut_step", ParamVal.i 1),
         ("use_pre_mjd0_lc", ParamVal.b false)] })]⟩

/-- Switches enabling only the custom-cut scan. -/
def argsC4 : Args := { custom_cuts := true }

/-- A custom cut section whose flag is not a parsable hexadecimal string. -/
def badCutSection : CfgSection :=
  [("column", "duJy"), ("flag", "zzz"), ("min_value", "None"), ("max_value", "None")]

/-- A configuration with valid default sections and one custom cut section
carrying the unparsable flag string zzz. -/
def configC4 : Config :=
  [("uncert_est", [("temp_x2_max_value", "5.0")]),
   ("uncert_cut", [("flag", "0x2"), ("max_value", "160.0")]),
   ("bad_cut", badCutSection)]

/-- The CutList parse_config_cuts returns for argsC4 and configC4: the
unconditional uncert_est cut only; the custom section was skipped. -/
def clC4 : CutList :=
  ⟨[("uncert_est",
     { params := [("temp_x2_max_value", ParamVal.q 5), ("uncert_cut_flag", ParamVal.i 2)] })]⟩

/-- A configuration whose uncert_cut section, read by the unconditional
uncert_est block, carries the unparsable flag string zzz. -/
def configBadDefaultHex : Config :=
  [("uncert_est", [("temp_x2_max_value", "5.0")]),
   ("uncert_cut", [("flag", "zzz"), ("max_value", "160.0")])]

/-- Switches enabling the chi-square, controls and averaging cuts. -/
def argsFatal : Args := { x2_cut := true, controls_cut := true, averaging := true }

/-- A configuration whose x2_cut, controls_cut and averaging sections each
carry the unparsable flag string zzz in their flag entry. -/
def configFatal : Config :=
  [("x2_cut", [("flag", "zzz")]),
   ("controls_cut", [("bad_flag", "zzz")]),
   ("averaging", [("flag", "zzz")])]

/-- An outcome oracle under which cleaning transient sn1 in filter o raises a
KeyError for a missing required column and every other unit succeeds. -/
def outcomeC3 : String → String → Option PyError := fun t f =>
  if t = "sn1" ∧ f = "o" then some (PyError.keyError ("duJy")) else none

/-- A complete custom cut section with an unset minimum bound. -/
def goodCutSection : CfgSection :=
  [("column", "chi/N"), ("flag", "0x8"), ("min_value", "None"), ("max_value", "5.0")]

/-- A custom cut section with no column key. -/
def noColumnSection : CfgSection :=
  [("flag", "0x8"), ("min_value", "None"), ("max_value", "5.0")]

/-- A subprocess oracle under which every script exits with status 1, so
every run raises CalledProcessError inside subprocess.run. -/
def runProcAllFail : Command → ProcResult := fun _ => ProcResult.calledProcessError 1

/-- One galaxy row of a query batch. -/
def rowW : GalaxyRow := { ra := 134, dec := -13, date := 60000, event := "139939" }

/-- A one-CSV, one-row query batch. -/
def dataW : List (List GalaxyRow) := [[rowW]]

/-!
Helper lemmas shared by the claim theorems.
-/

theorem except_ok_bind {ε α β : Type} (a : α) (f : α → Except ε β) :
    ((Except.ok a : Except ε α) >>= f) = f a := rfl

theorem except_pure_eq_ok {ε α : Type} (a : α) :
    (pure a : Except ε α) = Except.ok a := rfl

theorem int_land_comm (a b : Int) : Int.land a b = Int.land b a := by
  cases a <;> cases b <;> simp [Int.land, Nat.land_comm, Nat.lor_comm]

theorem pairwiseFlagHit_eq_false (l : List (String × Cut)) :
    pairwiseFlagHit l = false ↔
      l.Pairwise (fun c d => Int.land (cutFlag c.2) (cutFlag d.2) = 0) := by
  induction l with
  | nil => simp [pairwiseFlagHit]
  | cons c rest ih =>
    simp [pairwiseFlagHit, List.pairwise_cons, ih, List.any_eq_false]

/-!
Claim theorems.
-/

/-- C2: for every CutList, check_for_flag_duplicates reports true exactly when
there exist two distinct member Cuts whose flag values have a nonzero bitwise
AND. -/
theorem claim_C2_check_for_flag_duplicates_iff (cl : CutList) :
    (cl.check_for_flag_duplicates).1 = true ↔
      ∃ i j : Fin cl.cuts.length, i ≠ j ∧
        Int.land (cutFlag (cl.cuts.get i).2) (cutFlag (cl.cuts.get j).2) ≠ 0 := by
  have hfst : (cl.check_for_flag_duplicates).1 = pairwiseFlagHit cl.cuts := rfl
  rw [hfst]
  constructor
  · intro ht
    have hnp : ¬ cl.cuts.Pairwise (fun c d => Int.land (cutFlag c.2) (cutFlag d.2) = 0) := by
      intro hp
      have hf := (pairwiseFlagHit_eq_false cl.cuts).mpr hp
      rw [hf] at ht
      exact Bool.false_ne_true ht
    rw [List.pairwise_iff_get] at hnp
    push_neg at hnp
    obtain ⟨i, j, hij, hland⟩ := hnp
    exact ⟨i, j, Fin.ne_of_lt hij, hland⟩
  · rintro ⟨i, j, hne, hland⟩
    cases hb : pairwiseFlagHit cl.cuts with
    | true => rfl
    | false =>
      have hp := (pairwiseFlagHit_eq_false cl.cuts).mp hb
      rw [List.pairwise_iff_get] at hp
      have hvne : (i : Nat) ≠ (j : Nat) := fun hv => hne (Fin.ext hv)
      rcases lt_or_gt_of_ne hvne with hlt | hgt
      · exact absurd (hp i j hlt) hland
      · have hc := hp j i hgt
        rw [int_land_comm] at hc
        exact absurd hc hland

/-- C1: whenever the CutList built from the configuration contains two
distinct cuts with overlapping flag bits (check_for_flag_duplicates reports
true), parse_config_cuts raises the RuntimeError naming the duplicate flags
and returns no CutList. parse_config_cuts performs no data processing, so
the error precedes any application of a cut to data. -/
theorem claim_C1_duplicate_flags_fatal (args : Args) (config : Config) (cl : CutList)
    (hb : build_config_cuts args config = Except.ok cl)
    (hd : (cl.check_for_flag_duplicates).1 = true) :
    parse_config_cuts args config =
      Except.error (PyError.runtimeError (dupFlagsMsg (cl.check_for_flag_duplicates).2)) := by
  have hstep : parse_config_cuts args config =
      (if (cl.check_for_flag_duplicates).1 then
        Except.error (PyError.runtimeError (dupFlagsMsg (cl.check_for_flag_duplicates).2))
      else pure cl) := by
    unfold parse_config_cuts
    rw [hb]
    rfl
  rw [hstep, if_pos hd]

/-- C1 witness: a configuration whose uncert_cut and x2_cut both use flag
0x1 is rejected by parse_config_cuts with the duplicate-flag RuntimeError. -/
theorem claim_C1_witness :
    build_config_cuts argsW configW = Except.ok clW ∧
    (clW.check_for_flag_duplicates).1 = true ∧
    parse_config_cuts argsW configW =
      Except.error (PyError.runtimeError (dupFlagsMsg (clW.check_for_flag_duplicates).2)) :=
  ⟨by with_unfolding_all decide, by decide,
   claim_C1_duplicate_flags_fatal argsW configW clW (by with_unfolding_all decide) (by decide)⟩

/-- C8 counterexample: on the bin [10, 10, 10, 1000] with a 3-sigma clip
threshold, the Bad-Day Averager modelled from the spec does not produce
n_clipped = 1, n_good = 3 and flux = 10 as the claim states. -/
theorem claim_C8_counterexample :
    ¬ ((baddayBin 3 [10, 10, 10, 1000]).n_clipped = 1 ∧
       (baddayBin 3 [10, 10, 10, 1000]).n_good = 3 ∧
       (baddayBin 3 [10, 10, 10, 1000]).flux = 10) := by
  with_unfolding_all decide

/-- C8 amended: on the bin [10, 10, 10, 1000] with a 3-sigma clip threshold,
mean-and-standard-deviation sigma clipping rejects no point at all (no point
of a 4-element sample can lie more than sqrt 3 standard deviations from the
mean), so the emitted bin has n_clipped = 0, n_good = 4 and flux equal to the
mean 257.5 of all four points. -/
theorem claim_C8_amended :
    baddayBin 3 [10, 10, 10, 1000] =
      { flux := 515 / 2, n_good := 4, n_clipped := 0 } := by
  with_unfolding_all decide

theorem firstFailure_append (outcome : String → String → Option PyError)
    (l₁ l₂ : List (String × String)) :
    firstFailure outcome (l₁ ++ l₂) =
      (firstFailure outcome l₁).or (firstFailure outcome l₂) := by
  induction l₁ with
  | nil => simp [firstFailure]
  | cons v rest ih =>
    simp only [List.cons_append, firstFailure]
    cases hv : outcome v.1 v.2 with
    | some e => simp [Option.or]
    | none => simpa using ih

theorem takeWhile_append_of_some (outcome : String → String → Option PyError)
    (l₁ l₂ : List (String × String)) (u : String × String) (e : PyError)
    (h : firstFailure outcome l₁ = some (u, e)) :
    (l₁ ++ l₂).takeWhile (unitOk outcome) = l₁.takeWhile (unitOk outcome) := by
  induction l₁ with
  | nil => simp [firstFailure] at h
  | cons v rest ih =>
    simp only [List.cons_append, List.takeWhile_cons]
    cases hv : outcome v.1 v.2 with
    | some e2 => simp [unitOk, hv]
    | none =>
      have h2 : firstFailure outcome rest = some (u, e) := by
        simpa [firstFailure, hv] using h
      simp [unitOk, hv, ih h2]

theorem takeWhile_append_of_none (outcome : String → String → Option PyError)
    (l₁ l₂ : List (String × String)) (h : firstFailure outcome l₁ = none) :
    (l₁ ++ l₂).takeWhile (unitOk outcome) = l₁ ++ l₂.takeWhile (unitOk outcome) := by
  induction l₁ with
  | nil => simp
  | cons v rest ih =>
    cases hv : outcome v.1 v.2 with
    | some e => simp [firstFailure, hv] at h
    | none =>
      have h2 : firstFailure outcome rest = none := by
        simpa [firstFailure, hv] using h
      simp [List.takeWhile_cons, unitOk, hv, ih h2]

theorem takeWhile_eq_self_of_none (outcome : String → String → Option PyError)
    (l : List (String × String)) (h : firstFailure outcome l = none) :
    l.takeWhile (unitOk outcome) = l := by
  have := takeWhile_append_of_none outcome l [] h
  simpa using this

theorem loopFilters_eq (outcome : String → String → Option PyError)
    (t : String) (fs : List String) :
    loopFilters outcome t fs =
      ((fs.map (fun f => (t, f))).takeWhile (unitOk outcome),
       firstFailure outcome (fs.map (fun f => (t, f)))) := by
  induction fs with
  | nil => rfl
  | cons f rest ih =>
    simp only [loopFilters, clean_lcs, List.map_cons, List.takeWhile_cons, firstFailure]
    cases hv : outcome t f with
    | some e => simp [unitOk, hv]
    | none => simp [unitOk, hv, ih]

/-- C3 counterexample: under an outcome oracle where only unit (sn1, o)
fails, CleanLoop.loop on the batch [sn1, sn2] with filters [o, c] aborts at
once: no unit is processed and the remaining units, such as (sn2, c), are
never reached, contradicting the claim that the loop continues with every
remaining (transient, filter) unit. -/
theorem claim_C3_counterexample :
    CleanLoop.loop outcomeC3 ["sn1", "sn2"] ["o", "c"] =
      ([], some (("sn1", "o"), PyError.keyError ("duJy"))) ∧
    ¬ (("sn2", "c") ∈ (CleanLoop.loop outcomeC3 ["sn1", "sn2"] ["o", "c"]).1) := by
  constructor
  · decide
  · decide

/-- C3 amended: a failure while cleaning one (transient, filter) unit aborts
the whole batch, since CleanLoop.loop has no exception handling: the loop
processes exactly the units strictly before the first failing unit in
transient-major, filter-minor order, and stops at the first failure. -/
theorem claim_C3_amended (outcome : String → String → Option PyError)
    (tnsnames filters : List String) :
    CleanLoop.loop outcome tnsnames filters =
      ((allUnits tnsnames filters).takeWhile (unitOk outcome),
       firstFailure outcome (allUnits tnsnames filters)) := by
  induction tnsnames with
  | nil => rfl
  | cons t rest ih =>
    simp only [CleanLoop.loop, allUnits]
    rw [loopFilters_eq]
    cases hf : firstFailure outcome (filters.map (fun f => (t, f))) with
    | some ue =>
      obtain ⟨u, e⟩ := ue
      rw [takeWhile_append_of_some outcome _ _ u e hf, firstFailure_append, hf]
      simp
    | none =>
      rw [takeWhile_append_of_none outcome _ _ hf, firstFailure_append, hf, ih,
        takeWhile_eq_self_of_none outcome _ hf]
      simp

/-- C4 counterexample: configC4 contains the custom cut section bad_cut whose
flag value zzz is not a parsable hexadecimal string, yet parse_config_cuts
succeeds and returns a CutList (the bad section is merely skipped), so an
unparsable flag does not make parsing fail fatally for every cut section. -/
theorem claim_C4_counterexample :
    find_config_custom_cuts configC4 = [badCutSection] ∧
    dictGet badCutSection ("flag") = Except.ok ("zzz") ∧
    hexstring_to_int ("zzz") =
      Except.error (PyError.valueError ("invalid literal for int() with base 16: zzz")) ∧
    parse_config_cuts argsC4 configC4 = Except.ok clC4 := by
  refine ⟨by decide, by decide, by decide, by with_unfolding_all decide⟩

theorem except_error_bind {ε α β : Type} (e : ε) (f : α → Except ε β) :
    ((Except.error e : Except ε α) >>= f) = Except.error e := rfl

theorem except_bind_ok_iff {ε α β : Type} (x : Except ε α) (f : α → Except ε β) (b : β) :
    (x >>= f) = Except.ok b ↔ ∃ a, x = Except.ok a ∧ f a = Except.ok b := by
  cases x with
  | error e => simp [except_error_bind]
  | ok a => simp [except_ok_bind]

theorem parse_ok_build_ok (args : Args) (config : Config) (cl : CutList)
    (h : parse_config_cuts args config = Except.ok cl) :
    build_config_cuts args config = Except.ok cl := by
  unfold parse_config_cuts at h
  cases hb : build_config_cuts args config with
  | error e =>
    rw [hb, except_error_bind] at h
    exact Except.noConfusion h
  | ok cl2 =>
    rw [hb, except_ok_bind] at h
    by_cases hd : (cl2.check_for_flag_duplicates).1 = true
    · simp only [hd, eq_self_iff_true, if_true] at h
      exact Except.noConfusion h
    · have hd2 : (cl2.check_for_flag_duplicates).1 = false := by
        simpa using hd
      simp only [hd2] at h
      exact h

theorem build_ok_uncert_est (args : Args) (config : Config) (cl : CutList)
    (h : build_config_cuts args config = Except.ok cl) :
    ∃ c, build_uncert_est config = Except.ok c := by
  unfold build_config_cuts at h
  simp only [except_bind_ok_iff] at h
  obtain ⟨c1, h1, -⟩ := h
  exact ⟨c1, h1⟩

theorem build_ok_x2 (args : Args) (config : Config) (cl : CutList)
    (h : build_config_cuts args config = Except.ok cl) (hx : args.x2_cut = true) :
    ∃ c, build_x2_cut config = Except.ok c := by
  unfold build_config_cuts at h
  simp only [hx, if_true, except_bind_ok_iff] at h
  obtain ⟨c1, -, cl1, -, h⟩ := h
  cases hu : args.uncert_cut with
  | true =>
    simp only [hu, if_true, except_bind_ok_iff] at h
    obtain ⟨c2, -, cl2, -, c3, h3, -⟩ := h
    exact ⟨c3, h3⟩
  | false =>
    simp [hu, except_bind_ok_iff] at h
    obtain ⟨c3, h3, -⟩ := h
    exact ⟨c3, h3⟩

theorem build_ok_controls (args : Args) (config : Config) (cl : CutList)
    (h : build_config_cuts args config = Except.ok cl) (hcc : args.controls_cut = true) :
    ∃ c, build_controls_cut config = Except.ok c := by
  unfold build_config_cuts at h
  simp only [hcc, if_true, except_bind_ok_iff] at h
  obtain ⟨c1, -, cl1, -, h⟩ := h
  cases hu : args.uncert_cut with
  | true =>
    simp only [hu, if_true, except_bind_ok_iff] at h
    obtain ⟨c2, -, cl2, -, h⟩ := h
    cases hx : args.x2_cut with
    | true =>
      simp only [hx, if_true, except_bind_ok_iff] at h
      obtain ⟨c3, -, cl3, -, c4, h4, -⟩ := h
      exact ⟨c4, h4⟩
    | false =>
      simp [hx, except_bind_ok_iff] at h
      obtain ⟨c4, h4, -⟩ := h
      exact ⟨c4, h4⟩
  | false =>
    simp [hu, except_bind_ok_iff] at h
    cases hx : args.x2_cut with
    | true =>
      simp only [hx, if_true, except_bind_ok_iff] at h
      obtain ⟨c3, -, cl3, -, c4, h4, -⟩ := h
      exact ⟨c4, h4⟩
    | false =>
      simp [hx, except_bind_ok_iff] at h
      obtain ⟨c4, h4, -⟩ := h
      exact ⟨c4, h4⟩

theorem build_ok_badday (args : Args) (config : Config) (cl : CutList)
    (h : build_config_cuts args config = Except.ok cl) (hav : args.averaging = true) :
    ∃ c, build_badday_cut args config = Except.ok c := by
  unfold build_config_cuts at h
  simp only [hav, if_true, except_bind_ok_iff] at h
  obtain ⟨c1, -, cl1, -, h⟩ := h
  cases hu : args.uncert_cut with
  | true =>
    simp only [hu, if_true, except_bind_ok_iff] at h
    obtain ⟨c2, -, cl2, -, h⟩ := h
    cases hx : args.x2_cut with
    | true =>
      simp only [hx, if_true, except_bind_ok_iff] at h
      obtain ⟨c3, -, cl3, -, h⟩ := h
      cases hcc : args.controls_cut with
      | true =>
        simp only [hcc, if_true, except_bind_ok_iff] at h
        obtain ⟨c4, -, cl4, -, c5, h5, -⟩ := h
        exact ⟨c5, h5⟩
      | false =>
        simp [hcc, except_bind_ok_iff] at h
        obtain ⟨c5, h5, -⟩ := h
        exact ⟨c5, h5⟩
    | false =>
      simp [hx, except_bind_ok_iff] at h
      cases hcc : args.controls_cut with
      | true =>
        simp only [hcc, if_true, except_bind_ok_iff] at h
        obtain ⟨c4, -, cl4, -, c5, h5, -⟩ := h
        exact ⟨c5, h5⟩
      | false =>
        simp [hcc, except_bind_ok_iff] at h
        obtain ⟨c5, h5, -⟩ := h
        exact ⟨c5, h5⟩
  | false =>
    simp [hu, except_bind_ok_iff] at h
    cases hx : args.x2_cut with
    | true =>
      simp only [hx, if_true, except_bind_ok_iff] at h
      obtain ⟨c3, -, cl3, -, h⟩ := h
      cases hcc : args.controls_cut with
      | true =>
        simp only [hcc, if_true, except_bind_ok_iff] at h
        obtain ⟨c4, -, cl4, -, c5, h5, -⟩ := h
        exact ⟨c5, h5⟩
      | false =>
        simp [hcc, except_bind_ok_iff] at h
        obtain ⟨c5, h5, -⟩ := h
        exact ⟨c5, h5⟩
    | false =>
      simp [hx, except_bind_ok_iff] at h
      cases hcc : args.controls_cut with
      | true =>
        simp only [hcc, if_true, except_bind_ok_iff] at h
        obtain ⟨c4, -, cl4, -, c5, h5, -⟩ := h
        exact ⟨c5, h5⟩
      | false =>
        simp [hcc, except_bind_ok_iff] at h
        obtain ⟨c5, h5, -⟩ := h
        exact ⟨c5, h5⟩

theorem uncert_est_flag_parsed (config : Config) (c : Cut) (usec : CfgSection) (fs : String)
    (h : build_uncert_est config = Except.ok c)
    (hu : dictGet config ("uncert_cut") = Except.ok usec)
    (hf : dictGet usec ("flag") = Except.ok fs) :
    ∃ n, hexstring_to_int fs = Except.ok n := by
  unfold build_uncert_est at h
  simp only [except_bind_ok_iff] at h
  obtain ⟨s1, -, v1, -, t, -, s2, hs2, v2, hv2, n, hn, -⟩ := h
  rw [hu] at hs2
  injection hs2 with hs2
  subst hs2
  rw [hf] at hv2
  injection hv2 with hv2
  subst hv2
  exact ⟨n, hn⟩

theorem x2_flag_parsed (config : Config) (c : Cut) (sec : CfgSection) (fs : String)
    (h : build_x2_cut config = Except.ok c)
    (hs : dictGet config ("x2_cut") = Except.ok sec)
    (hf : dictGet sec ("flag") = Except.ok fs) :
    ∃ n, hexstring_to_int fs = Except.ok n := by
  unfold build_x2_cut at h
  simp only [except_bind_ok_iff] at h
  obtain ⟨s1, -, v1, -, q1, -, s2, -, v2, -, i2, -, s3, -, v3, -, i3, -,
    s4, -, v4, -, i4, -, s5, -, v5, -, s6, -, v6, -, q6, -,
    s7, hs7, v7, hv7, n, hn, -⟩ := h
  rw [hs] at hs7
  injection hs7 with hs7
  subst hs7
  rw [hf] at hv7
  injection hv7 with hv7
  subst hv7
  exact ⟨n, hn⟩

theorem controls_flag_parsed (config : Config) (c : Cut) (sec : CfgSection) (fs : String)
    (h : build_controls_cut config = Except.ok c)
    (hs : dictGet config ("controls_cut") = Except.ok sec)
    (hf : dictGet sec ("bad_flag") = Except.ok fs) :
    ∃ n, hexstring_to_int fs = Except.ok n := by
  unfold build_controls_cut at h
  simp only [except_bind_ok_iff] at h
  obtain ⟨s1, -, v1, -, i1, -, s2, -, v2, -, q2, -, s3, -, v3, -, i3, -,
    s4, -, v4, -, q4, -, s5, -, v5, -, i5, -, s6, -, v6, -, i6, -,
    s7, -, v7, -, i7, -, s8, -, v8, -, i8, -, s9, -, v9, -, i9, -,
    s10, hs10, v10, hv10, n, hn, -⟩ := h
  rw [hs] at hs10
  injection hs10 with hs10
  subst hs10
  rw [hf] at hv10
  injection hv10 with hv10
  subst hv10
  exact ⟨n, hn⟩

theorem badday_flag_parsed (args : Args) (config : Config) (c : Cut)
    (sec : CfgSection) (fs : String)
    (h : build_badday_cut args config = Except.ok c)
    (hs : dictGet config ("averaging") = Except.ok sec)
    (hf : dictGet sec ("flag") = Except.ok fs) :
    ∃ n, hexstring_to_int fs = Except.ok n := by
  unfold build_badday_cut at h
  cases hm : args.mjd_bin_size with
  | some v =>
    simp only [hm, except_error_bind] at h
    exact Except.noConfusion h
  | none =>
  simp only [hm, except_bind_ok_iff] at h
  obtain ⟨s0, -, v0, -, y, -, s1, -, v1, -, q1, -, s2, -, v2, -, i2, -,
    s3, -, v3, -, i3, -, s4, -, v4, -, i4, -, s5, -, v5, -, i5, -,
    s6, hs6, v6, hv6, n, hn, -⟩ := h
  rw [hs] at hs6
  injection hs6 with hs6
  subst hs6
  rw [hf] at hv6
  injection hv6 with hv6
  subst hv6
  exact ⟨n, hn⟩

/-- C4 amended: the string 0x1A parses to the integer 26. For every
configuration and every unparsable flag string, an unparsable flag entry of a
default cut section is fatal: uncert_cut.flag (read unconditionally by the
uncert_est block, for every switch combination), x2_cut.flag when the
chi-square cut is enabled, controls_cut.bad_flag when the control cut is
enabled, and averaging.flag when averaging is enabled each force
parse_config_cuts to return an error and no CutList. In every custom cut
section, by contrast, an unparsable flag only makes parse_custom_cut raise
inside the try of the custom-cut loop, so that section is skipped with a
warning and the loop continues. -/
theorem claim_C4_amended :
    hexstring_to_int ("0x1A") = Except.ok 26 ∧
    (∀ (args : Args) (config : Config) (usec : CfgSection) (fs : String) (e : PyError),
      dictGet config ("uncert_cut") = Except.ok usec →
      dictGet usec ("flag") = Except.ok fs →
      hexstring_to_int fs = Except.error e →
      ∃ e2, parse_config_cuts args config = Except.error e2) ∧
    (∀ (args : Args) (config : Config) (sec : CfgSection) (fs : String) (e : PyError),
      args.x2_cut = true →
      dictGet config ("x2_cut") = Except.ok sec →
      dictGet sec ("flag") = Except.ok fs →
      hexstring_to_int fs = Except.error e →
      ∃ e2, parse_config_cuts args config = Except.error e2) ∧
    (∀ (args : Args) (config : Config) (sec : CfgSection) (fs : String) (e : PyError),
      args.controls_cut = true →
      dictGet config ("controls_cut") = Except.ok sec →
      dictGet sec ("bad_flag") = Except.ok fs →
      hexstring_to_int fs = Except.error e →
      ∃ e2, parse_config_cuts args config = Except.error e2) ∧
    (∀ (args : Args) (config : Config) (sec : CfgSection) (fs : String) (e : PyError),
      args.averaging = true →
      dictGet config ("averaging") = Except.ok sec →
      dictGet sec ("flag") = Except.ok fs →
      hexstring_to_int fs = Except.error e →
      ∃ e2, parse_config_cuts args config = Except.error e2) ∧
    (∀ (i : Nat) (cl : CutList) (rest : List CfgSection) (s : CfgSection)
      (col fs : String) (e : PyError),
      dictGet s ("column") = Except.ok col →
      dictGet s ("flag") = Except.ok fs →
      hexstring_to_int fs = Except.error e →
      parse_custom_cut s = Except.error e ∧
      addCustomCutsFrom i cl (s :: rest) = addCustomCutsFrom (i + 1) cl rest) := by
  refine ⟨by decide, ?_, ?_, ?_, ?_, ?_⟩
  · intro args config usec fs e husec hfs hbad
    cases hp : parse_config_cuts args config with
    | error e2 => exact ⟨e2, rfl⟩
    | ok cl =>
      exfalso
      have hb := parse_ok_build_ok args config cl hp
      obtain ⟨c, hc⟩ := build_ok_uncert_est args config cl hb
      obtain ⟨n, hn⟩ := uncert_est_flag_parsed config c usec fs hc husec hfs
      rw [hbad] at hn
      exact Except.noConfusion hn
  · intro args config sec fs e hx hsec hfs hbad
    cases hp : parse_config_cuts args config with
    | error e2 => exact ⟨e2, rfl⟩
    | ok cl =>
      exfalso
      have hb := parse_ok_build_ok args config cl hp
      obtain ⟨c, hc⟩ := build_ok_x2 args config cl hb hx
      obtain ⟨n, hn⟩ := x2_flag_parsed config c sec fs hc hsec hfs
      rw [hbad] at hn
      exact Except.noConfusion hn
  · intro args config sec fs e hcc hsec hfs hbad
    cases hp : parse_config_cuts args config with
    | error e2 => exact ⟨e2, rfl⟩
    | ok cl =>
      exfalso
      have hb := parse_ok_build_ok args config cl hp
      obtain ⟨c, hc⟩ := build_ok_controls args config cl hb hcc
      obtain ⟨n, hn⟩ := controls_flag_parsed config c sec fs hc hsec hfs
      rw [hbad] at hn
      exact Except.noConfusion hn
  · intro args config sec fs e hav hsec hfs hbad
    cases hp : parse_config_cuts args config with
    | error e2 => exact ⟨e2, rfl⟩
    | ok cl =>
      exfalso
      have hb := parse_ok_build_ok args config cl hp
      obtain ⟨c, hc⟩ := build_ok_badday args config cl hb hav
      obtain ⟨n, hn⟩ := badday_flag_parsed args config c sec fs hc hsec hfs
      rw [hbad] at hn
      exact Except.noConfusion hn
  · intro i cl rest s col fs e hcol hfs hbad
    have hp : parse_custom_cut s = Except.error e := by
      simp only [parse_custom_cut, hcol, hfs, hbad, except_ok_bind, except_error_bind]
    exact ⟨hp, by simp only [addCustomCutsFrom, hp]⟩

/-- C4 amended witness: zzz is an unparsable hexadecimal string; applying the
amended theorem at concrete configurations, parsing fails fatally on a config
whose uncert_cut flag is zzz (for switch-free args), and on a config whose
x2_cut, controls_cut and averaging flag entries are zzz with those switches
on; the same string in a concrete custom section only skips that section. -/
theorem claim_C4_amended_witness :
    hexstring_to_int ("zzz") =
      Except.error (PyError.valueError ("invalid literal for int() with base 16: zzz")) ∧
    (∃ e2, parse_config_cuts argsC4 configBadDefaultHex = Except.error e2) ∧
    (∃ e2, parse_config_cuts argsFatal configFatal = Except.error e2) ∧
    (∃ e2, parse_config_cuts argsFatal configFatal = Except.error e2) ∧
    (∃ e2, parse_config_cuts argsFatal configFatal = Except.error e2) ∧
    (parse_custom_cut badCutSection =
      Except.error (PyError.valueError ("invalid literal for int() with base 16: zzz")) ∧
     addCustomCutsFrom 0 clC4 [badCutSection] = addCustomCutsFrom 1 clC4 []) :=
  ⟨by decide,
   claim_C4_amended.2.1 argsC4 configBadDefaultHex
     ([("flag", "zzz"), ("max_value", "160.0")]) ("zzz")
     (PyError.valueError ("invalid literal for int() with base 16: zzz"))
     (by decide) (by decide) (by decide),
   claim_C4_amended.2.2.1 argsFatal configFatal ([("flag", "zzz")]) ("zzz")
     (PyError.valueError ("invalid literal for int() with base 16: zzz"))
     rfl (by decide) (by decide) (by decide),
   claim_C4_amended.2.2.2.1 argsFatal configFatal ([("bad_flag", "zzz")]) ("zzz")
     (PyError.valueError ("invalid literal for int() with base 16: zzz"))
     rfl (by decide) (by decide) (by decide),
   claim_C4_amended.2.2.2.2.1 argsFatal configFatal ([("flag", "zzz")]) ("zzz")
     (PyError.valueError ("invalid literal for int() with base 16: zzz"))
     rfl (by decide) (by decide) (by decide),
   claim_C4_amended.2.2.2.2.2 0 clC4 [] badCutSection ("duJy") ("zzz")
     (PyError.valueError ("invalid literal for int() with base 16: zzz"))
     (by decide) (by decide) (by decide)⟩

/-- C5: the custom-cut loop is total, so a custom cut section that raises
(for example one missing the required column key, whose lookup gives a
KeyError) is skipped with a warning rather than failing, and every other
section still contributes its cut to the returned CutList, in order, as
described by customCutsSpec. -/
theorem claim_C5_bad_custom_cut_skipped :
    (∀ (i : Nat) (cl : CutList) (scs : List CfgSection),
      (addCustomCutsFrom i cl scs).cuts = cl.cuts ++ customCutsSpec i cl.names scs) ∧
    (∀ s : CfgSection, s.lookup ("column") = none →
      parse_custom_cut s = Except.error (PyError.keyError ("column"))) := by
  constructor
  · intro i cl scs
    induction scs generalizing i cl with
    | nil => simp [addCustomCutsFrom, customCutsSpec]
    | cons s rest ih =>
      cases hp : parse_custom_cut s with
      | error e => simp [addCustomCutsFrom, customCutsSpec, hp, ih]
      | ok cut =>
        by_cases hc : cl.names.contains ("custom_cut_" ++ toString i)
        · have hmem : ("custom_cut_" ++ toString i) ∈ cl.names := by simpa using hc
          have hadd : cl.add cut ("custom_cut_" ++ toString i) =
              Except.error (PyError.duplicateNameError ("custom_cut_" ++ toString i)) := by
            simp [CutList.add, CutList.has, hc, hmem]
          simp [addCustomCutsFrom, customCutsSpec, hp, hc, hadd, ih, hmem]
        · have hmem : ¬ (("custom_cut_" ++ toString i) ∈ cl.names) := by simpa using hc
          have hadd : cl.add cut ("custom_cut_" ++ toString i) =
              Except.ok ⟨cl.cuts ++ [("custom_cut_" ++ toString i, cut)]⟩ := by
            simp [CutList.add, CutList.has, hc, hmem]
          have hnames : (CutList.mk (cl.cuts ++ [("custom_cut_" ++ toString i, cut)])).names =
              cl.names ++ ["custom_cut_" ++ toString i] := by
            simp [CutList.names]
          simp [addCustomCutsFrom, customCutsSpec, hp, hc, hadd, ih, hnames, hmem]
  · intro s h
    unfold parse_custom_cut
    have hd : dictGet s ("column") = Except.error (PyError.keyError ("column")) := by
      simp [dictGet, h]
    rw [hd]
    rfl

/-- C5 witness: a custom cut section missing the column key raises KeyError
when parsed, and processing it together with a complete section leaves the
registered cuts exactly as customCutsSpec describes: the bad section is
skipped and the complete section's cut is still added. -/
theorem claim_C5_witness :
    noColumnSection.lookup ("column") = none ∧
    parse_custom_cut noColumnSection = Except.error (PyError.keyError ("column")) ∧
    (addCustomCutsFrom 0 clC4 [noColumnSection, goodCutSection]).cuts =
      clC4.cuts ++ customCutsSpec 0 clC4.names [noColumnSection, goodCutSection] :=
  ⟨by decide, claim_C5_bad_custom_cut_skipped.2 noColumnSection (by decide),
   claim_C5_bad_custom_cut_skipped.1 0 clC4 [noColumnSection, goodCutSection]⟩

/-- C9: CatSearch.query_tap is total at its interface: it returns the TAP
result DataFrame on success and the empty DataFrame on any exception,
network-related or otherwise, never raising. -/
theorem claim_C9_query_tap_total (launch : TapQuery → Except PyError DataFrame)
    (cs : CatSearch) (ra dec err : ℚ) :
    CatSearch.query_tap launch cs ra dec err =
      ((launch (buildTapQuery cs ra dec err)).toOption.getD []) := by
  unfold CatSearch.query_tap
  cases launch (buildTapQuery cs ra dec err) with
  | ok df => rfl
  | error e => cases e <;> rfl

theorem findCustomAux_eq (config : Config) (acc : List CfgSection) :
    findCustomAux config acc =
      acc ++ (config.filter (fun kv => isCustomCutKey kv.1)).map Prod.snd := by
  induction config generalizing acc with
  | nil => simp [findCustomAux]
  | cons kv rest ih =>
    obtain ⟨k, s⟩ := kv
    cases h : isCustomCutKey k with
    | true => simp [findCustomAux, h, ih, List.filter_cons]
    | false => simp [findCustomAux, h, ih, List.filter_cons]

/-- C6: find_config_custom_cuts returns exactly the sections of the document
whose key ends in _cut and is not in the reserved default cut name set, in
document order; a section is in the result precisely when its key satisfies
that condition, so no other section is treated as a custom cut. -/
theorem claim_C6_find_config_custom_cuts (config : Config) :
    find_config_custom_cuts config =
      (config.filter (fun kv => isCustomCutKey kv.1)).map Prod.snd ∧
    (∀ s : CfgSection, s ∈ find_config_custom_cuts config ↔
      ∃ k : String, (k, s) ∈ config ∧ isCustomCutKey k = true) := by
  have h1 : find_config_custom_cuts config =
      (config.filter (fun kv => isCustomCutKey kv.1)).map Prod.snd := by
    unfold find_config_custom_cuts
    simpa using findCustomAux_eq config []
  refine ⟨h1, fun s => ?_⟩
  rw [h1]
  simp only [List.mem_map, List.mem_filter]
  constructor
  · rintro ⟨⟨k, v⟩, ⟨hmem, hkey⟩, hv⟩
    cases hv
    exact ⟨k, hmem, hkey⟩
  · rintro ⟨k, hmem, hkey⟩
    exact ⟨(k, s), ⟨hmem, hkey⟩, rfl⟩

/-- C7: for a custom cut section whose column, flag, min_value and max_value
keys are present, whose flag parses, and whose bound entries are either the
literal string None or a parsable float value, the constructed Cut carries an
unset bound for a None entry and the converted float value otherwise. -/
theorem claim_C7_none_bounds (s : CfgSection) (col flStr mn mx : String) (fv : Int)
    (hcol : dictGet s ("column") = Except.ok col)
    (hflk : dictGet s ("flag") = Except.ok flStr)
    (hfl : hexstring_to_int flStr = Except.ok fv)
    (hmn : dictGet s ("min_value") = Except.ok mn)
    (hmx : dictGet s ("max_value") = Except.ok mx)
    (hmnok : mn = "None" ∨ ∃ q : ℚ, pyFloat mn = Except.ok q)
    (hmxok : mx = "None" ∨ ∃ q : ℚ, pyFloat mx = Except.ok q) :
    ∃ c : Cut, parse_custom_cut s = Except.ok c ∧
      c.min_value = (if mn = "None" then none else (pyFloat mn).toOption) ∧
      c.max_value = (if mx = "None" then none else (pyFloat mx).toOption) ∧
      c.column = some col ∧ c.flag = some fv := by
  have hnone : pyFloat ("None") = Except.error
      (PyError.valueError ("could not convert string to float: None")) := by decide
  simp only [parse_custom_cut, hcol, hflk, hfl, hmn, hmx, except_ok_bind]
  rcases hmnok with hmn0 | ⟨qmn, hqmn⟩
  · rcases hmxok with hmx0 | ⟨qmx, hqmx⟩
    · subst hmn0; subst hmx0
      refine ⟨⟨some col, none, none, some fv, []⟩, ?_, by simp, by simp, rfl, rfl⟩
      simp [except_pure_eq_ok, except_ok_bind]
    · subst hmn0
      have hmxne : ¬ (mx = "None") := by
        intro h
        rw [h, hnone] at hqmx
        exact Except.noConfusion hqmx
      refine ⟨⟨some col, none, some qmx, some fv, []⟩, ?_, by simp, ?_, rfl, rfl⟩
      · simp [hmxne, hqmx, except_ok_bind, except_pure_eq_ok]
      · simp [hmxne, hqmx, Except.toOption]
  · have hmnne : ¬ (mn = "None") := by
      intro h
      rw [h, hnone] at hqmn
      exact Except.noConfusion hqmn
    rcases hmxok with hmx0 | ⟨qmx, hqmx⟩
    · subst hmx0
      refine ⟨⟨some col, some qmn, none, some fv, []⟩, ?_, ?_, by simp, rfl, rfl⟩
      · simp [hmnne, hqmn, except_ok_bind, except_pure_eq_ok]
      · simp [hmnne, hqmn, Except.toOption]
    · have hmxne : ¬ (mx = "None") := by
        intro h
        rw [h, hnone] at hqmx
        exact Except.noConfusion hqmx
      refine ⟨⟨some col, some qmn, some qmx, some fv, []⟩, ?_, ?_, ?_, rfl, rfl⟩
      · simp [hmnne, hmxne, hqmn, hqmx, except_ok_bind, except_pure_eq_ok]
      · simp [hmnne, hqmn, Except.toOption]
      · simp [hmxne, hqmx, Except.toOption]

/-- C7 witness: on a concrete complete section with min_value None and
max_value 5.0, the parsed Cut has no minimum bound and maximum bound 5. -/
theorem claim_C7_witness :
    ∃ c : Cut, parse_custom_cut goodCutSection = Except.ok c ∧
      c.min_value = (if ("None" : String) = "None" then none
        else (pyFloat ("None")).toOption) ∧
      c.max_value = (if ("5.0" : String) = "None" then none
        else (pyFloat ("5.0")).toOption) ∧
      c.column = some ("chi/N") ∧ c.flag = some 8 :=
  claim_C7_none_bounds goodCutSection ("chi/N") ("0x8") ("None") ("5.0") 8
    (by decide) (by decide) (by decide) (by decide) (by decide)
    (Or.inl rfl) (Or.inr ⟨5, by with_unfolding_all decide⟩)

theorem queryRows_ok (runProc : Command → ProcResult) (repo : String)
    (h : ∀ (c : Command) (e : PyError), runProc c ≠ ProcResult.raised e) :
    ∀ (rows : List GalaxyRow) (i : Nat),
      queryRows runProc repo i rows = Except.ok (rowCommands repo i rows) := by
  intro rows
  induction rows with
  | nil => intro i; rfl
  | cons row rest ih =>
    intro i
    have hd : run_script_with_args runProc (downloadCommand repo row i) = Except.ok () := by
      unfold run_script_with_args
      cases hr : runProc (downloadCommand repo row i) with
      | success => rfl
      | calledProcessError n => rfl
      | raised e => exact absurd hr (h _ e)
    have hc : run_script_with_args runProc (cleanCommand repo row i) = Except.ok () := by
      unfold run_script_with_args
      cases hr : runProc (cleanCommand repo row i) with
      | success => rfl
      | calledProcessError n => rfl
      | raised e => exact absurd hr (h _ e)
    simp only [queryRows, rowCommands, hd, hc, ih, except_ok_bind, except_pure_eq_ok]

/-- C10: run_script_with_args catches a CalledProcessError (non-zero exit
status) and returns normally; consequently, when every subprocess outcome is
a clean exit or a non-zero exit status, Atclean_Query.query completes the
whole batch, running the download.py and clean.py commands of every row of
every CSV regardless of individual script failures. -/
theorem claim_C10_query_survives_script_failures :
    (∀ (runProc : Command → ProcResult) (c : Command) (n : Int),
      runProc c = ProcResult.calledProcessError n →
      run_script_with_args runProc c = Except.ok ()) ∧
    (∀ (runProc : Command → ProcResult) (repo : String)
      (data : List (List GalaxyRow)),
      (∀ (c : Command) (e : PyError), runProc c ≠ ProcResult.raised e) →
      Atclean_Query.query runProc repo data = Except.ok (allCommands repo data)) := by
  constructor
  · intro runProc c n h
    unfold run_script_with_args
    rw [h]
  · intro runProc repo data h
    induction data with
    | nil => rfl
    | cons csv rest ih =>
      simp only [Atclean_Query.query, allCommands, queryRows_ok runProc repo h csv 0, ih,
        except_ok_bind, except_pure_eq_ok]

/-- C10 witness: under an oracle where every script exits with status 1,
run_script_with_args still returns normally on the first download command and
query still completes the whole one-row batch. -/
theorem claim_C10_witness :
    runProcAllFail (downloadCommand ("repo") rowW 0) = ProcResult.calledProcessError 1 ∧
    run_script_with_args runProcAllFail (downloadCommand ("repo") rowW 0) = Except.ok () ∧
    (∀ (c : Command) (e : PyError), runProcAllFail c ≠ ProcResult.raised e) ∧
    Atclean_Query.query runProcAllFail ("repo") dataW =
      Except.ok (allCommands ("repo") dataW) :=
  ⟨rfl,
   claim_C10_query_survives_script_failures.1 runProcAllFail _ 1 rfl,
   fun _ _ h => ProcResult.noConfusion h,
   claim_C10_query_survives_script_failures.2 runProcAllFail ("repo") dataW
     (fun _ _ h => ProcResult.noConfusion h)⟩

end MPhys
